import Mathlib

/-!
Verification of `src/imp/system_verilog/models/parameters.py`: the four
SystemVerilog constant-declaration AST node classes (`Parameter`,
`ParameterDeclaration`, `LocalParam`, `LocalParamDeclaration`), their
construction-time validation and their `__str__` rendering.

Embedding conventions:
* Python `ValueError` (the spec calls it `InvalidArgument`) is modelled by
  constructors returning `Except String τ` carrying the exact message.
* The Python `Any`-typed fields (`default`, `value`) are modelled by
  `PyValue`: the basic constant kinds together with an `obj` constructor
  standing for an arbitrary Python object identified by the string its
  `repr` produces (a custom `__repr__` may return any string).
* The external `DataType` collaborator is opaque; rendering uses `str()` on
  it, so it is modelled by its deterministic textual representation.
* A Python call site may omit a defaulted argument; an argument with a
  `None` default is therefore taken as `Option _`, with omission and an
  explicit `None` both mapping to the stored `None` exactly as in Python.
-/

namespace SVParams

/-- A Python value as stored in an `Any`-typed field.  `obj r` stands for an
arbitrary Python object whose `repr()` output is the string `r`. -/
inductive PyValue where
  | none
  | int (n : Int)
  | bool (b : Bool)
  | str (s : String)
  | obj (r : String)
deriving DecidableEq, Repr

/-- One escaped character of a Python single-line string repr, for quote
character `q`. -/
def pyEscapeChar (q : Char) (c : Char) : List Char :=
  if c = '\\' then ['\\', '\\']
  else if c = q then ['\\', q]
  else if c = '\n' then ['\\', 'n']
  else if c = '\r' then ['\\', 'r']
  else if c = '\t' then ['\\', 't']
  else [c]

/-- Python `repr` of a string: single-quoted, except double-quoted when the
string contains a single quote and no double quote; backslash, the quote
character and common control characters are escaped. -/
def pyReprStr (s : String) : String :=
  let q : Char := if s.data.contains '\'' && !(s.data.contains '"')
    then '"' else '\''
  String.mk (q :: (s.data.flatMap (pyEscapeChar q) ++ [q]))

/-- Python `repr` of a `PyValue`. -/
def pyRepr : PyValue → String
  | PyValue.none => "None"
  | PyValue.int n => toString n
  | PyValue.bool b => if b then "True" else "False"
  | PyValue.str s => pyReprStr s
  | PyValue.obj r => r

/-- The external `DataType` collaborator, modelled by its stable textual
representation (the source interpolates it with `str()`). -/
structure DataType where
  text : String
deriving DecidableEq, Repr

/-- Python `class Parameter`: name, dtype and optional default value. -/
structure Parameter where
  name : String
  dtype : DataType
  default : PyValue
deriving DecidableEq, Repr

/-- Embeds `Parameter.__init__`: rejects an empty `name`, otherwise assigns the
fields.  The `default` argument has Python default `None`; an omitted
argument is `Option.none` and stores `PyValue.none`. -/
def Parameter.init (name : String) (dtype : DataType)
    (default : Option PyValue) : Except String Parameter :=
  if name = "" then Except.error "Parameter name cannot be empty"
  else Except.ok { name := name, dtype := dtype,
                   default := default.getD PyValue.none }

/-- Property `Parameter.is_constant`: returns `True` unconditionally. -/
def Parameter.is_constant (_ : Parameter) : Bool := true

/-- Embeds `Parameter.__str__`. -/
def Parameter.str (p : Parameter) : String :=
  "Parameter(name=" ++ pyReprStr p.name ++ ", dtype=" ++ p.dtype.text
    ++ ", default=" ++ pyRepr p.default ++ ")"

/-- Python `class ParameterDeclaration`: a list of names and a shared `Parameter`. -/
structure ParameterDeclaration where
  names : List String
  parameter : Parameter
deriving DecidableEq, Repr

/-- Embeds `ParameterDeclaration.__init__`: rejects an empty `names` list. -/
def ParameterDeclaration.init (names : List String) (parameter : Parameter) :
    Except String ParameterDeclaration :=
  if names = [] then Except.error "Names list cannot be empty"
  else Except.ok { names := names, parameter := parameter }

/-- Models `', '.join(repr(n) for n in names)`: the names' reprs in list
order, separated by a comma and a space. -/
def namesRepr : List String → String
  | [] => ""
  | [n] => pyReprStr n
  | n :: ns => pyReprStr n ++ ", " ++ namesRepr ns

/-- Embeds `ParameterDeclaration.__str__`. -/
def ParameterDeclaration.str (d : ParameterDeclaration) : String :=
  "ParameterDeclaration(names=[" ++ namesRepr d.names ++ "], parameter="
    ++ d.parameter.str ++ ")"

/-- Python `class LocalParam`: name, dtype, required value, optional comment. -/
structure LocalParam where
  name : String
  dtype : DataType
  value : PyValue
  comment : Option String
deriving DecidableEq, Repr

/-- Embeds `LocalParam.__init__`: rejects an empty `name`.  `value` has no Python
default, so the argument is a plain `PyValue`; `comment` defaults to
`None`. -/
def LocalParam.init (name : String) (dtype : DataType) (value : PyValue)
    (comment : Option String) : Except String LocalParam :=
  if name = "" then Except.error "LocalParam name cannot be empty"
  else Except.ok { name := name, dtype := dtype, value := value,
                   comment := comment }

/-- Property `LocalParam.is_constant`: returns `True` unconditionally. -/
def LocalParam.is_constant (_ : LocalParam) : Bool := true

/-- Embeds `LocalParam.__str__`: the comment is appended to the argument list only
when it is not `None`. -/
def LocalParam.str (l : LocalParam) : String :=
  let args := "name=" ++ pyReprStr l.name ++ ", dtype=" ++ l.dtype.text
    ++ ", value=" ++ pyRepr l.value
  let args := match l.comment with
    | Option.some c => args ++ ", comment=" ++ pyReprStr c
    | Option.none => args
  "LocalParam(" ++ args ++ ")"

/-- Python `class LocalParamDeclaration`: a list of names and a shared
`LocalParam`. -/
structure LocalParamDeclaration where
  names : List String
  localparam : LocalParam
deriving DecidableEq, Repr

/-- Embeds `LocalParamDeclaration.__init__`: rejects an empty `names` list. -/
def LocalParamDeclaration.init (names : List String) (localparam : LocalParam) :
    Except String LocalParamDeclaration :=
  if names = [] then Except.error "Names list cannot be empty"
  else Except.ok { names := names, localparam := localparam }

/-- Embeds `LocalParamDeclaration.__str__`. -/
def LocalParamDeclaration.str (d : LocalParamDeclaration) : String :=
  "LocalParamDeclaration(names=[" ++ namesRepr d.names ++ "], localparam="
    ++ d.localparam.str ++ ")"

/-- Holds exactly on a successful construction. -/
def isOk {α : Type} : Except String α → Bool
  | Except.ok _ => true
  | Except.error _ => false

/-- Sample `Parameter` used as the shared descriptor in counterexamples. -/
def cexParameter : Parameter :=
  { name := "P", dtype := { text := "int32" }, default := PyValue.int 1 }

/-- Sample `LocalParam` used as the shared descriptor in counterexamples. -/
def cexLocalParam : LocalParam :=
  { name := "L", dtype := { text := "int32" }, value := PyValue.int 2,
    comment := Option.none }

/-- The nested parameter of the spec's end-to-end example 2:
`Parameter("A", int32, 1)`. -/
def abParameter : Parameter :=
  { name := "A", dtype := { text := "int32" }, default := PyValue.int 1 }

/-- The spec's end-to-end example 2:
`ParameterDeclaration(names=["A","B"], parameter=Parameter("A", int32, 1))`. -/
def abDeclaration : ParameterDeclaration :=
  { names := ["A", "B"], parameter := abParameter }

/-- Two strings are equal exactly when their character lists are. -/
theorem str_eq_iff_data (a b : String) : a = b ↔ a.data = b.data :=
  Iff.intro (congrArg String.data) (fun h => congrArg String.mk h)

/-- Appending distributes over the character lists. -/
theorem data_append_eq (a b : String) : (a ++ b).data = a.data ++ b.data :=
  rfl

/-- A shared prefix and a shared suffix cancel in a string equation. -/
theorem append_middle_inj (x y a b : String) :
    x ++ a ++ y = x ++ b ++ y ↔ a = b := by
  constructor
  · intro h
    rw [str_eq_iff_data] at h
    simp only [data_append_eq, List.append_assoc] at h
    exact (str_eq_iff_data a b).mpr
      (List.append_cancel_right (List.append_cancel_left h))
  · intro h
    rw [h]

/-- C1: for each of the four node types, construction succeeds exactly when
the required identifier (`name`) is non-empty (resp. the `names` sequence is
non-empty); equivalently, `InvalidArgument` is raised exactly when it is
empty, whatever the remaining fields are. -/
theorem c1_construction_succeeds_iff_nonempty :
    (∀ (n : String) (dt : DataType) (d : Option PyValue),
        isOk (Parameter.init n dt d) = true ↔ n ≠ "") ∧
    (∀ (ns : List String) (p : Parameter),
        isOk (ParameterDeclaration.init ns p) = true ↔ ns ≠ []) ∧
    (∀ (n : String) (dt : DataType) (v : PyValue) (c : Option String),
        isOk (LocalParam.init n dt v c) = true ↔ n ≠ "") ∧
    (∀ (ns : List String) (l : LocalParam),
        isOk (LocalParamDeclaration.init ns l) = true ↔ ns ≠ []) := by
  refine ⟨fun n dt d => ?_, fun ns p => ?_, fun n dt v c => ?_,
    fun ns l => ?_⟩
  · by_cases h : n = "" <;> simp [Parameter.init, h, isOk]
  · by_cases h : ns = [] <;> simp [ParameterDeclaration.init, h, isOk]
  · by_cases h : n = "" <;> simp [LocalParam.init, h, isOk]
  · by_cases h : ns = [] <;> simp [LocalParamDeclaration.init, h, isOk]

/-- C2 counterexample: the names list `[""]` contains an empty identifier,
yet both declaration constructors accept it — element contents are never
validated, only emptiness of the list itself. -/
theorem c2_counterexample_empty_element_accepted :
    ParameterDeclaration.init [""] cexParameter
        = Except.ok { names := [""], parameter := cexParameter } ∧
    LocalParamDeclaration.init [""] cexLocalParam
        = Except.ok { names := [""], localparam := cexLocalParam } :=
  ⟨rfl, rfl⟩

/-- C2 amended: a `names` sequence containing an empty-string element is
still accepted by `ParameterDeclaration` and `LocalParamDeclaration`;
construction fails only when the sequence itself is empty. -/
theorem c2_amended_empty_element_accepted :
    ∀ (ns : List String) (p : Parameter) (l : LocalParam),
      "" ∈ ns →
      isOk (ParameterDeclaration.init ns p) = true ∧
      isOk (LocalParamDeclaration.init ns l) = true := by
  intro ns p l h
  have hne : ns ≠ [] := by
    intro he
    rw [he] at h
    exact absurd h (List.not_mem_nil "")
  constructor
  · simp [ParameterDeclaration.init, hne, isOk]
  · simp [LocalParamDeclaration.init, hne, isOk]

/-- C2 amended, witness at the concrete input `names = [""]`. -/
theorem c2_amended_empty_element_accepted_witness :
    isOk (ParameterDeclaration.init [""] cexParameter) = true ∧
    isOk (LocalParamDeclaration.init [""] cexLocalParam) = true :=
  c2_amended_empty_element_accepted [""] cexParameter cexLocalParam
    (List.mem_singleton.mpr rfl)

/-- C3: a `LocalParam` always carries exactly the `value` it was constructed
with — the argument is required and has no default — whereas a `Parameter`
can be constructed with the `default` argument absent, in which case the
stored default is `None`. -/
theorem c3_localparam_value_required :
    (∀ (n : String) (dt : DataType) (v : PyValue) (c : Option String)
        (l : LocalParam),
        LocalParam.init n dt v c = Except.ok l → l.value = v) ∧
    (∀ (n : String) (dt : DataType), n ≠ "" →
        Parameter.init n dt Option.none
          = Except.ok { name := n, dtype := dt, default := PyValue.none }) := by
  constructor
  · intro n dt v c l h
    unfold LocalParam.init at h
    split at h
    · exact absurd h (by simp)
    · cases h
      rfl
  · intro n dt h
    simp [Parameter.init, h, Option.getD]

/-- C3, witness: a concrete `LocalParam` stores the value `2` it was given,
and a concrete `Parameter` built with no `default` argument stores `None`. -/
theorem c3_localparam_value_required_witness :
    ({ name := "L", dtype := { text := "t" }, value := PyValue.int 2,
        comment := Option.none } : LocalParam).value = PyValue.int 2 ∧
    Parameter.init "P" { text := "t" } Option.none
      = Except.ok { name := "P", dtype := { text := "t" },
                    default := PyValue.none } :=
  ⟨c3_localparam_value_required.1 "L" { text := "t" } (PyValue.int 2)
      Option.none _ rfl,
   c3_localparam_value_required.2 "P" { text := "t" } (by decide)⟩

/-- C4: the rendering of a constructed `LocalParam` carries the comment as a
trailing `, comment=...` annotation exactly when the comment is non-null;
with a null comment the rendering ends right after the value, with no
trailing separator. -/
theorem c4_comment_suffix_iff_nonnull :
    ∀ (n : String) (dt : DataType) (v : PyValue) (c : Option String)
      (l : LocalParam), LocalParam.init n dt v c = Except.ok l →
      LocalParam.str l
        = match c with
          | Option.none =>
              "LocalParam(" ++ ("name=" ++ pyReprStr n ++ ", dtype="
                ++ dt.text ++ ", value=" ++ pyRepr v) ++ ")"
          | Option.some s =>
              "LocalParam(" ++ ("name=" ++ pyReprStr n ++ ", dtype="
                ++ dt.text ++ ", value=" ++ pyRepr v
                ++ ", comment=" ++ pyReprStr s) ++ ")" := by
  intro n dt v c l h
  unfold LocalParam.init at h
  split at h
  · exact absurd h (by simp)
  · cases h
    cases c <;> rfl

/-- C4, witness at `LocalParam("DEPTH", int32, 16, comment="fifo depth")`
and at the same construction without a comment. -/
theorem c4_comment_suffix_iff_nonnull_witness :
    LocalParam.str ({ name := "DEPTH", dtype := { text := "int32" },
                      value := PyValue.int 16,
                      comment := Option.some "fifo depth" })
      = "LocalParam(" ++ ("name=" ++ pyReprStr "DEPTH" ++ ", dtype="
          ++ "int32" ++ ", value=" ++ pyRepr (PyValue.int 16)
          ++ ", comment=" ++ pyReprStr "fifo depth") ++ ")" ∧
    LocalParam.str ({ name := "DEPTH", dtype := { text := "int32" },
                      value := PyValue.int 16, comment := Option.none })
      = "LocalParam(" ++ ("name=" ++ pyReprStr "DEPTH" ++ ", dtype="
          ++ "int32" ++ ", value=" ++ pyRepr (PyValue.int 16)) ++ ")" :=
  ⟨c4_comment_suffix_iff_nonnull "DEPTH" { text := "int32" }
      (PyValue.int 16) (Option.some "fifo depth") _ rfl,
   c4_comment_suffix_iff_nonnull "DEPTH" { text := "int32" }
      (PyValue.int 16) Option.none _ rfl⟩

/-- C5: rendering is total (each `str` is a total function on its node type)
and deterministic — two constructions from identical field values yield
nodes whose rendered strings are equal, for all four node types. -/
theorem c5_rendering_deterministic :
    (∀ (n : String) (dt : DataType) (d : Option PyValue) (p q : Parameter),
        Parameter.init n dt d = Except.ok p →
        Parameter.init n dt d = Except.ok q →
        Parameter.str p = Parameter.str q) ∧
    (∀ (ns : List String) (pp : Parameter) (d e : ParameterDeclaration),
        ParameterDeclaration.init ns pp = Except.ok d →
        ParameterDeclaration.init ns pp = Except.ok e →
        ParameterDeclaration.str d = ParameterDeclaration.str e) ∧
    (∀ (n : String) (dt : DataType) (v : PyValue) (c : Option String)
        (x y : LocalParam),
        LocalParam.init n dt v c = Except.ok x →
        LocalParam.init n dt v c = Except.ok y →
        LocalParam.str x = LocalParam.str y) ∧
    (∀ (ns : List String) (lp : LocalParam) (d e : LocalParamDeclaration),
        LocalParamDeclaration.init ns lp = Except.ok d →
        LocalParamDeclaration.init ns lp = Except.ok e →
        LocalParamDeclaration.str d = LocalParamDeclaration.str e) := by
  refine ⟨fun n dt d p q h1 h2 => ?_, fun ns pp d e h1 h2 => ?_,
    fun n dt v c x y h1 h2 => ?_, fun ns lp d e h1 h2 => ?_⟩ <;>
  · rw [h1] at h2
    cases h2
    rfl

/-- C5, witness: determinism applied to the double construction of
`Parameter("W", int32, 8)`. -/
theorem c5_rendering_deterministic_witness :
    Parameter.str ({ name := "W", dtype := { text := "int32" },
                     default := PyValue.int 8 })
      = Parameter.str ({ name := "W", dtype := { text := "int32" },
                         default := PyValue.int 8 }) :=
  c5_rendering_deterministic.1 "W" { text := "int32" }
    (Option.some (PyValue.int 8)) _ _ rfl rfl

/-- C6 counterexample: the Python integer `1` and a distinct object whose
`repr()` is also the string `1` (for instance a numpy integer) are
distinguishable default values, yet the two constructible `Parameter` nodes
render to the same string — rendering is not injective on field values. -/
theorem c6_counterexample_distinct_defaults_same_render :
    Parameter.init "A" { text := "int" } (Option.some (PyValue.int 1))
        = Except.ok { name := "A", dtype := { text := "int" },
                      default := PyValue.int 1 } ∧
    Parameter.init "A" { text := "int" } (Option.some (PyValue.obj "1"))
        = Except.ok { name := "A", dtype := { text := "int" },
                      default := PyValue.obj "1" } ∧
    ({ name := "A", dtype := { text := "int" },
        default := PyValue.int 1 } : Parameter)
      ≠ { name := "A", dtype := { text := "int" },
          default := PyValue.obj "1" } ∧
    Parameter.str ({ name := "A", dtype := { text := "int" },
                     default := PyValue.int 1 })
      = Parameter.str ({ name := "A", dtype := { text := "int" },
                         default := PyValue.obj "1" }) :=
  ⟨rfl, rfl, by decide, by decide⟩

/-- C6 amended: rendering distinguishes nodes exactly up to the textual
representations of their fields — with `name` and `dtype` fixed, two
`Parameter` nodes render equal iff their defaults have equal `repr`s, and
two `LocalParam` nodes with equal comments render equal iff their values
have equal `repr`s; distinct values sharing a `repr` render identically. -/
theorem c6_amended_injective_up_to_repr :
    (∀ (n : String) (dt : DataType) (d1 d2 : PyValue),
        (Parameter.str { name := n, dtype := dt, default := d1 }
            = Parameter.str { name := n, dtype := dt, default := d2 })
          ↔ pyRepr d1 = pyRepr d2) ∧
    (∀ (n : String) (dt : DataType) (v1 v2 : PyValue) (c : Option String),
        (LocalParam.str { name := n, dtype := dt, value := v1, comment := c }
            = LocalParam.str ({ name := n, dtype := dt, value := v2,
                                comment := c }))
          ↔ pyRepr v1 = pyRepr v2) := by
  constructor
  · intro n dt d1 d2
    exact append_middle_inj _ ")" (pyRepr d1) (pyRepr d2)
  · intro n dt v1 v2 c
    cases c <;>
      simp [LocalParam.str, str_eq_iff_data, data_append_eq,
        List.append_assoc, List.append_cancel_left_eq,
        List.append_cancel_right_eq]

/-- C7: the rendering of a constructed `ParameterDeclaration` lists the
names' reprs in declaration order inside `names=[...]`, followed by the
rendering of the nested `Parameter`; the head of a non-singleton list is
rendered first, and the spec's end-to-end example 2 renders both `A` and
`B` in that order plus the nested parameter's render. -/
theorem c7_declaration_render_lists_names_in_order :
    (∀ (ns : List String) (p : Parameter) (d : ParameterDeclaration),
        ParameterDeclaration.init ns p = Except.ok d →
        ParameterDeclaration.str d
          = "ParameterDeclaration(names=[" ++ namesRepr ns
              ++ "], parameter=" ++ Parameter.str p ++ ")") ∧
    (∀ (n : String) (ns : List String), ns ≠ [] →
        namesRepr (n :: ns) = pyReprStr n ++ ", " ++ namesRepr ns) ∧
    ParameterDeclaration.str abDeclaration
      = "ParameterDeclaration(names=['A', 'B'], parameter=Parameter(name='A', dtype=int32, default=1))" := by
  refine ⟨fun ns p d h => ?_, fun n ns h => ?_, ?_⟩
  · unfold ParameterDeclaration.init at h
    split at h
    · exact absurd h (by simp)
    · cases h
      rfl
  · cases ns
    · exact absurd rfl h
    · rfl
  · rfl

/-- C7, witness: the general decomposition applied to the example
declaration, and the in-order lemma applied at its head name. -/
theorem c7_declaration_render_lists_names_in_order_witness :
    ParameterDeclaration.str abDeclaration
      = "ParameterDeclaration(names=[" ++ namesRepr ["A", "B"]
          ++ "], parameter=" ++ Parameter.str abParameter ++ ")" ∧
    namesRepr ["A", "B"] = pyReprStr "A" ++ ", " ++ namesRepr ["B"] :=
  ⟨c7_declaration_render_lists_names_in_order.1 ["A", "B"] abParameter
      abDeclaration rfl,
   c7_declaration_render_lists_names_in_order.2.1 "A" ["B"] (by decide)⟩

/-- C8: `is_constant` is `true` for every successfully constructed
`Parameter` and every successfully constructed `LocalParam`, whatever the
field values. -/
theorem c8_is_constant_always_true :
    (∀ (n : String) (dt : DataType) (d : Option PyValue) (p : Parameter),
        Parameter.init n dt d = Except.ok p → p.is_constant = true) ∧
    (∀ (n : String) (dt : DataType) (v : PyValue) (c : Option String)
        (l : LocalParam),
        LocalParam.init n dt v c = Except.ok l → l.is_constant = true) :=
  ⟨fun _ _ _ _ _ => rfl, fun _ _ _ _ _ _ => rfl⟩

/-- C8, witness at the concretely constructed example nodes. -/
theorem c8_is_constant_always_true_witness :
    Parameter.is_constant abParameter = true ∧
    LocalParam.is_constant cexLocalParam = true :=
  ⟨c8_is_constant_always_true.1 "A" { text := "int32" }
      (Option.some (PyValue.int 1)) abParameter rfl,
   c8_is_constant_always_true.2 "L" { text := "int32" } (PyValue.int 2)
      Option.none cexLocalParam rfl⟩

/-- C9: a failing construction is a pure rejection — on an empty required
identifier (resp. empty names list) each constructor returns exactly the
`InvalidArgument` error value, which carries no node and hence no assigned
fields; there is no partial construction. -/
theorem c9_failure_is_total_rejection :
    (∀ (dt : DataType) (d : Option PyValue),
        Parameter.init "" dt d
          = Except.error "Parameter name cannot be empty") ∧
    (∀ (p : Parameter),
        ParameterDeclaration.init [] p
          = Except.error "Names list cannot be empty") ∧
    (∀ (dt : DataType) (v : PyValue) (c : Option String),
        LocalParam.init "" dt v c
          = Except.error "LocalParam name cannot be empty") ∧
    (∀ (l : LocalParam),
        LocalParamDeclaration.init [] l
          = Except.error "Names list cannot be empty") :=
  ⟨fun _ _ => rfl, fun _ => rfl, fun _ _ _ => rfl, fun _ => rfl⟩

/-- C10: success or failure of construction depends only on the required
identifier (`name`) or name list (`names`): two constructions agreeing on
it but differing arbitrarily in dtype, default, value, comment, or nested
descriptor either both succeed or both fail. -/
theorem c10_failure_depends_only_on_required_names :
    (∀ (n : String) (dta dtb : DataType) (da db : Option PyValue),
        isOk (Parameter.init n dta da) = isOk (Parameter.init n dtb db)) ∧
    (∀ (n : String) (dta dtb : DataType) (va vb : PyValue)
        (ca cb : Option String),
        isOk (LocalParam.init n dta va ca)
          = isOk (LocalParam.init n dtb vb cb)) ∧
    (∀ (ns : List String) (pa pb : Parameter),
        isOk (ParameterDeclaration.init ns pa)
          = isOk (ParameterDeclaration.init ns pb)) ∧
    (∀ (ns : List String) (la lb : LocalParam),
        isOk (LocalParamDeclaration.init ns la)
          = isOk (LocalParamDeclaration.init ns lb)) := by
  refine ⟨fun n dta dtb da db => ?_, fun n dta dtb va vb ca cb => ?_,
    fun ns pa pb => ?_, fun ns la lb => ?_⟩
  · by_cases h : n = "" <;> simp [Parameter.init, h, isOk]
  · by_cases h : n = "" <;> simp [LocalParam.init, h, isOk]
  · by_cases h : ns = [] <;> simp [ParameterDeclaration.init, h, isOk]
  · by_cases h : ns = [] <;> simp [LocalParamDeclaration.init, h, isOk]

end SVParams
